import Mathlib

/-!
Verification of the solana name-server instruction handler
(src/nameserver-rust/src/lib.rs) against its natural-language
specification.  The handler, its record codecs and its error taxonomy are
shallowly embedded below; the hash primitive, the seeded address
derivation and the rent sysvar are the external collaborators the spec
names, so they are parameters of the model (the `Host` structure).
-/

/-- A byte buffer: a list of naturals, each intended to be below 256. -/
abbrev Bytes := List Nat

/-- A 32-byte public key, modelled as its raw byte content. -/
structure Pubkey where
  bytes : Bytes
deriving DecidableEq, Repr

/-- The error enumeration of lib.rs (`enum VoteError`), in declaration
order. -/
inductive VoteError
  | UnexpectedCandidate
  | IncorrectOwner
  | AccountNotRentExempt
  | AccountNotCheckAccount
  | AlreadyVoted
deriving DecidableEq, Repr

/-- The numeric code of a `VoteError`, as produced by `e as u32` in
`impl From<VoteError> for ProgramError`: declaration order starting
at 0. -/
def VoteError.toCode : VoteError → Nat
  | .UnexpectedCandidate => 0
  | .IncorrectOwner => 1
  | .AccountNotRentExempt => 2
  | .AccountNotCheckAccount => 3
  | .AlreadyVoted => 4

/-- The slice of the host SDK error type that the handler can produce:
`ProgramError::Custom` wrapping a `VoteError` code, plus the generic
structural errors the pipeline uses. -/
inductive ProgErr
  | Custom (code : Nat)
  | InvalidAccountData
  | MissingRequiredSignature
  | NotEnoughAccountKeys
deriving DecidableEq, Repr

/-- An account record as supplied by the host: key, owner, lamport
balance, raw data bytes and the signer flag. -/
structure AccountInfo where
  key : Pubkey
  owner : Pubkey
  lamports : Nat
  data : Bytes
  is_signer : Bool
deriving DecidableEq, Repr

/-- The rent sysvar, external to the core: only its exemption predicate
`is_exempt(lamports, data_len)` is consumed by the handler. -/
structure Rent where
  exempt : Nat → Nat → Bool

/-- The external collaborators the handler calls into: the hash
primitive, the seeded address derivation, the well-known rent sysvar
identity and the rent sysvar decoder. -/
structure Host where
  hash : Bytes → Bytes
  createWithSeed : Pubkey → String → Pubkey → Except ProgErr Pubkey
  rentId : Pubkey
  rentFromData : Bytes → Except ProgErr Rent

/-- Little-endian read of a u32 from the first four bytes of a buffer
(`LittleEndian::read_u32`). -/
def readU32LE (b : Bytes) : Nat :=
  b.getD 0 0 + 256 * b.getD 1 0 + 65536 * b.getD 2 0 + 16777216 * b.getD 3 0

/-- Little-endian write of a u32 into four bytes
(`LittleEndian::write_u32`). -/
def writeU32LE (n : Nat) : Bytes :=
  [n % 256, n / 256 % 256, n / 65536 % 256, n / 16777216 % 256]

/-- The `Metadata` instruction-data structure: one 32-byte account
identifier (the claim record content). -/
structure Metadata where
  acct_id : Pubkey
deriving DecidableEq, Repr

namespace Metadata

/-- `Metadata::LEN` from the `Pack` impl. -/
def LEN : Nat := 32

/-- `Metadata::unpack_from_slice`: always succeeds, wrapping the raw
bytes as a key. -/
def unpack_from_slice (src : Bytes) : Except ProgErr Metadata :=
  .ok ⟨⟨src⟩⟩

/-- `Pack::unpack_unchecked`: checks the buffer length against `LEN`,
then delegates to `unpack_from_slice`. -/
def unpack_unchecked (input : Bytes) : Except ProgErr Metadata :=
  if input.length ≠ LEN then .error .InvalidAccountData
  else unpack_from_slice input

/-- `Pack::pack`: checks the destination length against `LEN`, then
writes the key bytes (`pack_into_slice`). -/
def pack (src : Metadata) (dst : Bytes) : Except ProgErr Bytes :=
  if dst.length ≠ LEN then .error .InvalidAccountData
  else .ok src.acct_id.bytes

end Metadata

/-- The vestigial `Vote` structure: a single candidate byte. -/
structure Vote where
  candidate : Nat
deriving DecidableEq, Repr

namespace Vote

/-- `Vote::LEN` from the `Pack` impl. -/
def LEN : Nat := 1

/-- `Vote::unpack_from_slice`: reads the first byte and rejects any
value other than 1 or 2 with `UnexpectedCandidate`. -/
def unpack_from_slice (src : Bytes) : Except ProgErr Vote :=
  let candidate := src.getD 0 0
  if candidate ≠ 1 ∧ candidate ≠ 2 then
    .error (.Custom VoteError.UnexpectedCandidate.toCode)
  else .ok ⟨candidate⟩

/-- `Pack::unpack_unchecked` for `Vote`. -/
def unpack_unchecked (input : Bytes) : Except ProgErr Vote :=
  if input.length ≠ LEN then .error .InvalidAccountData
  else unpack_from_slice input

end Vote

/-- The `ServerData` structure: the global count of claimed names, one
little-endian u32. -/
structure ServerData where
  name_count : Nat
deriving DecidableEq, Repr

namespace ServerData

/-- `ServerData::LEN` from the `Pack` impl. -/
def LEN : Nat := 4

/-- `ServerData::unpack_from_slice`: reads the little-endian u32. -/
def unpack_from_slice (src : Bytes) : Except ProgErr ServerData :=
  .ok ⟨readU32LE src⟩

/-- `Pack::unpack_unchecked` for `ServerData`. -/
def unpack_unchecked (input : Bytes) : Except ProgErr ServerData :=
  if input.length ≠ LEN then .error .InvalidAccountData
  else unpack_from_slice input

/-- `Pack::pack` for `ServerData`: length check, then the little-endian
write. -/
def pack (src : ServerData) (dst : Bytes) : Except ProgErr Bytes :=
  if dst.length ≠ LEN then .error .InvalidAccountData
  else .ok (writeU32LE src.name_count)

end ServerData

/-- The result of one invocation: success or failure carry the final
account list (the host commits it atomically); a panic aborts the
program with a message, committing nothing. -/
inductive Outcome
  | success (accounts : List AccountInfo)
  | failure (e : ProgErr) (accounts : List AccountInfo)
  | panic (msg : String)
deriving DecidableEq, Repr

/-- Replace the data bytes of the account at index i, leaving every
other account untouched (the in-place write through the borrowed
account data). -/
def setData : List AccountInfo → Nat → Bytes → List AccountInfo
  | [], _, _ => []
  | a :: l, 0, d => { a with data := d } :: l
  | a :: l, i + 1, d => a :: setData l i d

/-- Shallow embedding of `process_instruction` from lib.rs.  Account
fetching follows the `next_account_info` iterator (indices 0..3);
every early `return Err` carries the untouched account list; the two
`pack` writes at the end build the committed state; each `.expect` in
the source is a `panic` branch here. -/
def process_instruction (host : Host) (program_id : Pubkey)
    (accounts : List AccountInfo) (instruction_data : Bytes) : Outcome :=
  match accounts[0]? with
  | none => .failure .NotEnoughAccountKeys accounts
  | some server_account =>
    if server_account.owner ≠ program_id then
      .failure (.Custom VoteError.IncorrectOwner.toCode) accounts
    else match accounts[1]? with
    | none => .failure .NotEnoughAccountKeys accounts
    | some metadata_account =>
      if metadata_account.owner ≠ program_id then
        .failure (.Custom VoteError.IncorrectOwner.toCode) accounts
      else match accounts[2]? with
      | none => .failure .NotEnoughAccountKeys accounts
      | some sysvar_account =>
        match host.rentFromData sysvar_account.data with
        | .error e => .failure e accounts
        | .ok rent =>
          if ¬ (sysvar_account.key = host.rentId) then
            .failure .InvalidAccountData accounts
          else if ¬ rent.exempt metadata_account.lamports
              metadata_account.data.length then
            .failure (.Custom VoteError.AccountNotRentExempt.toCode) accounts
          else match accounts[3]? with
          | none => .failure .NotEnoughAccountKeys accounts
          | some target_account =>
            if ¬ target_account.is_signer then
              .failure .MissingRequiredSignature accounts
            else
              match host.createWithSeed ⟨host.hash instruction_data⟩
                  "metadata" program_id with
              | .error e => .failure e accounts
              | .ok expected =>
                if expected ≠ metadata_account.key then
                  .failure (.Custom VoteError.AccountNotCheckAccount.toCode)
                    accounts
                else
                  match Metadata.unpack_unchecked metadata_account.data with
                  | .error _ => .panic "Failed to read VoterCheck"
                  | .ok metadata_check =>
                    if metadata_check.acct_id.bytes ≠ List.replicate 32 0 then
                      .failure (.Custom VoteError.AlreadyVoted.toCode) accounts
                    else
                      match ServerData.unpack_unchecked server_account.data with
                      | .error _ => .panic "Failed to read ServerData"
                      | .ok server_data =>
                        match ServerData.pack
                            ⟨(server_data.name_count + 1) % 4294967296⟩
                            server_account.data with
                        | .error _ => .panic "Failed to write ServerData"
                        | .ok new_server_bytes =>
                          match Metadata.pack metadata_check metadata_account.data with
                          | .error _ => .panic "Failed to write Metadata"
                          | .ok new_metadata_bytes =>
                            .success
                              (setData (setData accounts 0 new_server_bytes)
                                1 new_metadata_bytes)

/-- The error carried by a failing outcome, if any. -/
def Outcome.errorOf : Outcome → Option ProgErr
  | .failure e _ => some e
  | _ => none

/-- Whether the outcome is a success. -/
def Outcome.isSuccess : Outcome → Bool
  | .success _ => true
  | _ => false

/-- The data bytes of every account in the outcome state (empty for a
panic, which commits nothing). -/
def Outcome.finalData : Outcome → List Bytes
  | .success accounts => accounts.map AccountInfo.data
  | .failure _ accounts => accounts.map AccountInfo.data
  | .panic _ => []

/-- First failing check of an ordered check list: the error of the
earliest check whose condition is false, if any. -/
def firstFailingError : List (Bool × ProgErr) → Option ProgErr
  | [] => none
  | (c, e) :: rest =>
    if c then firstFailingError rest else some e

/-! Concrete host and accounts used to instantiate the theorems below on
explicit inputs. -/

/-- A concrete host: the hash of a buffer is 31 zero bytes followed by
its length, the derived address is the seed bytes extended by the owner
bytes, the rent sysvar decodes from a nonempty buffer, and exemption
holds when the balance is positive. -/
def testHost : Host where
  hash := fun b => List.replicate 31 0 ++ [b.length % 256]
  createWithSeed := fun seed _tag owner => .ok ⟨seed.bytes ++ owner.bytes⟩
  rentId := ⟨[9]⟩
  rentFromData := fun d =>
    if d.isEmpty then .error .InvalidAccountData
    else .ok ⟨fun lamports _len => decide (0 < lamports)⟩

/-- The program identity of the concrete scenario. -/
def testPid : Pubkey := ⟨[1]⟩

/-- The name payload of the concrete scenario. -/
def testPayload : Bytes := [5]

/-- Concrete counter record: owned by the program, count 0. -/
def testServer : AccountInfo :=
  { key := ⟨[2]⟩, owner := testPid, lamports := 0,
    data := [0, 0, 0, 0], is_signer := false }

/-- Concrete claim record: owned by the program, at the derived address
for the payload, 32 zero bytes, positive balance. -/
def testMetadata : AccountInfo :=
  { key := ⟨(List.replicate 31 0 ++ [1]) ++ [1]⟩, owner := testPid,
    lamports := 5, data := List.replicate 32 0, is_signer := false }

/-- Concrete rent sysvar record with the well-known identity. -/
def testSysvar : AccountInfo :=
  { key := ⟨[9]⟩, owner := ⟨[3]⟩, lamports := 0,
    data := [1], is_signer := false }

/-- Concrete requester record: a signer. -/
def testTarget : AccountInfo :=
  { key := ⟨[7]⟩, owner := ⟨[4]⟩, lamports := 0,
    data := [], is_signer := true }

/-- The four records of the concrete scenario, in the required order. -/
def testAccounts : List AccountInfo :=
  [testServer, testMetadata, testSysvar, testTarget]

/-- The state after one successful claim in the concrete scenario: the
counter bytes become 1, everything else is untouched. -/
def testAccounts1 : List AccountInfo :=
  [{ testServer with data := [1, 0, 0, 0] }, testMetadata, testSysvar,
    testTarget]

/-- The state after a second successful claim: the counter bytes become
2 while the claim record still reads unclaimed. -/
def testAccounts2 : List AccountInfo :=
  [{ testServer with data := [2, 0, 0, 0] }, testMetadata, testSysvar,
    testTarget]

/-- The concrete scenario with the counter at its maximum value. -/
def overflowAccounts : List AccountInfo :=
  [{ testServer with data := [255, 255, 255, 255] }, testMetadata,
    testSysvar, testTarget]

/-- The concrete scenario with a requester that did not sign. -/
def noSignerAccounts : List AccountInfo :=
  [testServer, testMetadata, testSysvar,
    { testTarget with is_signer := false }]

/-- A claim record whose address does not match the derived one. -/
def wrongKeyMetadata : AccountInfo := { testMetadata with key := ⟨[8]⟩ }

/-- A counter record not owned by the program. -/
def badOwnerServer : AccountInfo := { testServer with owner := ⟨[6]⟩ }

/-- A claim record with a 31-byte data buffer. -/
def shortMetadata : AccountInfo :=
  { testMetadata with data := List.replicate 31 0 }

/-- A counter record with a 3-byte data buffer. -/
def shortServer : AccountInfo := { testServer with data := [0, 0, 0] }

/-! Helper lemmas shared by the claim theorems. -/

theorem read_write_u32 (n : Nat) :
    readU32LE (writeU32LE n) = n % 4294967296 := by
  simp [readU32LE, writeU32LE]
  omega

set_option maxHeartbeats 2000000 in
/-- Every failing invocation returns the account list exactly as it was
supplied: all `return Err` paths precede the two writes. -/
theorem failure_state_unchanged (host : Host) (pid : Pubkey)
    (accounts : List AccountInfo) (data : Bytes) (e : ProgErr)
    (st : List AccountInfo)
    (h : process_instruction host pid accounts data = .failure e st) :
    st = accounts := by
  unfold process_instruction at h
  repeat any_goals split at h
  all_goals simp_all

/-- Inversion of a successful invocation: every check passed, the claim
record was all-zero, and the final state rewrites the counter bytes with
the incremented count and the claim record with its own previous
bytes. -/
theorem success_inversion (host : Host) (pid : Pubkey)
    (s m v t : AccountInfo) (rest : List AccountInfo) (data : Bytes)
    (st : List AccountInfo)
    (h : process_instruction host pid (s :: m :: v :: t :: rest) data =
      .success st) :
    s.owner = pid ∧ m.owner = pid ∧ v.key = host.rentId ∧
    t.is_signer = true ∧
    host.createWithSeed ⟨host.hash data⟩ "metadata" pid = .ok m.key ∧
    m.data = List.replicate 32 0 ∧ s.data.length = 4 ∧
    st = setData (setData (s :: m :: v :: t :: rest) 0
        (writeU32LE ((readU32LE s.data + 1) % 4294967296))) 1 m.data := by
  unfold process_instruction at h
  simp only [List.getElem?_cons_zero, List.getElem?_cons_succ] at h
  by_cases h1 : s.owner = pid
  swap
  · simp [h1] at h
  by_cases h2 : m.owner = pid
  swap
  · simp [h1, h2] at h
  rcases hr : host.rentFromData v.data with e | rent
  · simp [h1, h2, hr] at h
  by_cases h3 : v.key = host.rentId
  swap
  · simp [h1, h2, hr, h3] at h
  by_cases h4 : rent.exempt m.lamports m.data.length = true
  swap
  · simp [h1, h2, hr, h3, h4] at h
  by_cases h5 : t.is_signer = true
  swap
  · simp [h1, h2, hr, h3, h4, h5] at h
  rcases hd : host.createWithSeed ⟨host.hash data⟩ "metadata" pid
    with e | expected
  · simp [h1, h2, hr, h3, h4, h5, hd] at h
  by_cases h6 : expected = m.key
  swap
  · simp [h1, h2, hr, h3, h4, h5, hd, h6] at h
  by_cases h7 : m.data.length = 32
  swap
  · simp [h1, h2, hr, h3, h4, h5, hd, h6, h7,
      Metadata.unpack_unchecked, Metadata.LEN] at h
  have h4x : rent.exempt m.lamports 32 = true := by rw [← h7]; exact h4
  by_cases h8 : m.data = List.replicate 32 0
  swap
  · have h8x := h8
    simp at h8x
    simp [h1, h2, hr, h3, h4, h4x, h5, hd, h6, h7, h8x,
      Metadata.unpack_unchecked, Metadata.unpack_from_slice,
      Metadata.LEN] at h
  by_cases h9 : s.data.length = 4
  swap
  · simp [h1, h2, hr, h3, h4, h4x, h5, hd, h6, h7, h8, h9,
      Metadata.unpack_unchecked, Metadata.unpack_from_slice, Metadata.LEN,
      ServerData.unpack_unchecked, ServerData.LEN] at h
  simp [h1, h2, hr, h3, h4, h4x, h5, hd, h6, h7, h8, h9,
    Metadata.unpack_unchecked, Metadata.unpack_from_slice, Metadata.LEN,
    ServerData.unpack_unchecked, ServerData.unpack_from_slice,
    ServerData.LEN, ServerData.pack, Metadata.pack] at h
  refine ⟨h1, h2, h3, h5, by rw [h6], h8, h9, ?_⟩
  simp only [h8]
  simp
  exact h.symm

set_option maxHeartbeats 2000000 in
/-- The error of any invocation on four records is the error of the
first failing check, in the order of the source: counter ownership,
claim ownership, attestation identity, rent exemption, signature,
derived address, already claimed. -/
theorem process_error_eq_firstFailing (host : Host) (pid : Pubkey)
    (s m v t : AccountInfo) (data : Bytes) (rent : Rent) (expected : Pubkey)
    (hrent : host.rentFromData v.data = .ok rent)
    (hderive : host.createWithSeed ⟨host.hash data⟩ "metadata" pid =
      .ok expected)
    (hlen : m.data.length = 32) :
    (process_instruction host pid [s, m, v, t] data).errorOf =
      firstFailingError
        [ (decide (s.owner = pid), .Custom VoteError.IncorrectOwner.toCode),
          (decide (m.owner = pid), .Custom VoteError.IncorrectOwner.toCode),
          (decide (v.key = host.rentId), .InvalidAccountData),
          (rent.exempt m.lamports m.data.length,
            .Custom VoteError.AccountNotRentExempt.toCode),
          (t.is_signer, .MissingRequiredSignature),
          (decide (expected = m.key),
            .Custom VoteError.AccountNotCheckAccount.toCode),
          (decide (m.data = List.replicate 32 0),
            .Custom VoteError.AlreadyVoted.toCode) ] := by
  by_cases h1 : s.owner = pid <;>
  by_cases h2 : m.owner = pid <;>
  by_cases h3 : v.key = host.rentId <;>
  by_cases h4 : rent.exempt m.lamports m.data.length = true <;>
  by_cases h5 : t.is_signer = true <;>
  by_cases h6 : expected = m.key <;>
  by_cases h7 : m.data = List.replicate 32 0 <;>
  by_cases h8 : s.data.length = 4 <;>
  simp_all [process_instruction, firstFailingError, Outcome.errorOf,
    Metadata.unpack_unchecked, Metadata.unpack_from_slice, Metadata.LEN,
    Metadata.pack, ServerData.unpack_unchecked, ServerData.unpack_from_slice,
    ServerData.LEN, ServerData.pack]

set_option maxHeartbeats 2000000 in
/-- Fewer than four records never succeed: some record fetch or check
fails first. -/
theorem short_list_no_success (host : Host) (pid : Pubkey)
    (accounts : List AccountInfo) (data : Bytes) (st : List AccountInfo)
    (hlen : accounts.length < 4) :
    process_instruction host pid accounts data ≠ .success st := by
  intro h
  rcases accounts with _ | ⟨a, _ | ⟨b, _ | ⟨c, _ | ⟨d, r⟩⟩⟩⟩
  · unfold process_instruction at h
    simp at h
  · unfold process_instruction at h
    repeat any_goals split at h
    all_goals simp_all
  · unfold process_instruction at h
    repeat any_goals split at h
    all_goals simp_all
  · unfold process_instruction at h
    repeat any_goals split at h
    all_goals simp_all
  · simp at hlen
    omega

set_option maxHeartbeats 4000000 in
/-- With the claim record 32 bytes long and the counter record 4 bytes
long, no invocation reaches a panic branch. -/
theorem no_panic (host : Host) (pid : Pubkey)
    (s m v t : AccountInfo) (rest : List AccountInfo) (data : Bytes)
    (hm : m.data.length = 32) (hs : s.data.length = 4) (msg : String) :
    process_instruction host pid (s :: m :: v :: t :: rest) data ≠
      .panic msg := by
  intro h
  unfold process_instruction at h
  repeat any_goals split at h
  all_goals simp_all [Metadata.unpack_unchecked, Metadata.unpack_from_slice,
    Metadata.LEN, ServerData.unpack_unchecked, ServerData.unpack_from_slice,
    ServerData.LEN, ServerData.pack, Metadata.pack]

set_option maxHeartbeats 4000000 in
/-- Records past the fourth never change the outcome: the iterator
reads only the first four entries. -/
theorem extras_ignored (host : Host) (pid : Pubkey)
    (s m v t : AccountInfo) (rest : List AccountInfo) (data : Bytes) :
    (process_instruction host pid (s :: m :: v :: t :: rest) data).errorOf =
      (process_instruction host pid [s, m, v, t] data).errorOf ∧
    (process_instruction host pid (s :: m :: v :: t :: rest) data).isSuccess =
      (process_instruction host pid [s, m, v, t] data).isSuccess := by
  unfold process_instruction
  repeat any_goals split
  all_goals simp_all [Outcome.errorOf, Outcome.isSuccess]

/-! Claim theorems and their witnesses. -/

/-- C1: after a successful claim, repeating the same claim for the same
name succeeds again instead of failing with AlreadyVoted, because the
claim record is persisted all-zero: the code never writes the claimant
identity, so a second successful claim is recorded against the same
ClaimRecord. -/
theorem C1_second_claim_succeeds :
    process_instruction testHost testPid testAccounts testPayload =
      .success testAccounts1 ∧
    process_instruction testHost testPid testAccounts1 testPayload =
      .success testAccounts2 ∧
    process_instruction testHost testPid testAccounts1 testPayload ≠
      .failure (.Custom VoteError.AlreadyVoted.toCode) testAccounts1 := by
  decide

/-- C2: a successful request rewrites the claim record with exactly the
bytes that were decoded, the all-zero value, so the claim record is
unchanged byte for byte and the requesting identity is never written
into it. -/
theorem C2_claim_record_unchanged (host : Host) (pid : Pubkey)
    (s m v t : AccountInfo) (rest : List AccountInfo) (data : Bytes)
    (st : List AccountInfo)
    (h : process_instruction host pid (s :: m :: v :: t :: rest) data =
      .success st) :
    m.data = List.replicate 32 0 ∧
    st = { s with data := writeU32LE ((readU32LE s.data + 1) % 4294967296) }
      :: m :: v :: t :: rest := by
  obtain ⟨-, -, -, -, -, hz, -, hst⟩ :=
    success_inversion host pid s m v t rest data st h
  refine ⟨hz, ?_⟩
  rw [hst]
  simp [setData]

theorem C2_witness :
    testMetadata.data = List.replicate 32 0 ∧
    testAccounts1 = { testServer with
        data := writeU32LE ((readU32LE testServer.data + 1) % 4294967296) }
      :: testMetadata :: testSysvar :: testTarget :: [] :=
  C2_claim_record_unchanged testHost testPid testServer testMetadata
    testSysvar testTarget [] testPayload testAccounts1 (by decide)

/-- C3 counterexample: with the counter at 4294967295, a successful
claim wraps the stored count to 0, so the post value is not the pre
value plus one and the count decreases. -/
theorem C3_counterexample_overflow :
    process_instruction testHost testPid overflowAccounts testPayload =
      .success [{ testServer with data := [0, 0, 0, 0] }, testMetadata,
        testSysvar, testTarget] ∧
    readU32LE [255, 255, 255, 255] = 4294967295 ∧
    readU32LE [0, 0, 0, 0] = 0 := by decide

/-- C3 amended: a successful invocation stores (pre + 1) mod 2^32 in
the counter, which equals pre + 1 whenever that does not overflow, and
a failing invocation leaves every record unchanged, so the counter is
never decremented below 2^32 - 1. -/
theorem C3_counter_increment :
    (∀ (host : Host) (pid : Pubkey) (s m v t : AccountInfo)
      (rest : List AccountInfo) (data : Bytes) (st : List AccountInfo),
      process_instruction host pid (s :: m :: v :: t :: rest) data =
        .success st →
      (st.map AccountInfo.data)[0]? =
        some (writeU32LE ((readU32LE s.data + 1) % 4294967296)) ∧
      readU32LE (writeU32LE ((readU32LE s.data + 1) % 4294967296)) =
        (readU32LE s.data + 1) % 4294967296 ∧
      (readU32LE s.data + 1 < 4294967296 →
        readU32LE (writeU32LE ((readU32LE s.data + 1) % 4294967296)) =
          readU32LE s.data + 1)) ∧
    (∀ (host : Host) (pid : Pubkey) (accounts : List AccountInfo)
      (data : Bytes) (e : ProgErr) (st : List AccountInfo),
      process_instruction host pid accounts data = .failure e st →
      st = accounts) := by
  constructor
  · intro host pid s m v t rest data st h
    obtain ⟨-, -, -, -, -, -, -, hst⟩ :=
      success_inversion host pid s m v t rest data st h
    subst hst
    refine ⟨by simp [setData], by rw [read_write_u32]; omega, fun hlt => ?_⟩
    rw [read_write_u32]
    omega
  · exact failure_state_unchanged

theorem C3_witness :
    ((testAccounts1.map AccountInfo.data)[0]? =
      some (writeU32LE ((readU32LE testServer.data + 1) % 4294967296))) ∧
    noSignerAccounts = noSignerAccounts := by
  constructor
  · exact (C3_counter_increment.1 testHost testPid testServer testMetadata
      testSysvar testTarget [] testPayload testAccounts1 (by decide)).1
  · exact C3_counter_increment.2 testHost testPid noSignerAccounts
      testPayload .MissingRequiredSignature noSignerAccounts (by decide)

/-- C4: a failing invocation mutates no record, and the error returned
is the one of the first failing check in pipeline order. -/
theorem C4_error_no_mutation_first_check :
    (∀ (host : Host) (pid : Pubkey) (accounts : List AccountInfo)
      (data : Bytes) (e : ProgErr) (st : List AccountInfo),
      process_instruction host pid accounts data = .failure e st →
      st = accounts) ∧
    (∀ (host : Host) (pid : Pubkey) (s m v t : AccountInfo) (data : Bytes)
      (rent : Rent) (expected : Pubkey),
      host.rentFromData v.data = .ok rent →
      host.createWithSeed ⟨host.hash data⟩ "metadata" pid = .ok expected →
      m.data.length = 32 →
      (process_instruction host pid [s, m, v, t] data).errorOf =
        firstFailingError
          [ (decide (s.owner = pid), .Custom VoteError.IncorrectOwner.toCode),
            (decide (m.owner = pid), .Custom VoteError.IncorrectOwner.toCode),
            (decide (v.key = host.rentId), .InvalidAccountData),
            (rent.exempt m.lamports m.data.length,
              .Custom VoteError.AccountNotRentExempt.toCode),
            (t.is_signer, .MissingRequiredSignature),
            (decide (expected = m.key),
              .Custom VoteError.AccountNotCheckAccount.toCode),
            (decide (m.data = List.replicate 32 0),
              .Custom VoteError.AlreadyVoted.toCode) ]) :=
  ⟨failure_state_unchanged, process_error_eq_firstFailing⟩

theorem C4_witness :
    noSignerAccounts = noSignerAccounts ∧
    (process_instruction testHost testPid
      [testServer, testMetadata, testSysvar,
        { testTarget with is_signer := false }] testPayload).errorOf =
      some .MissingRequiredSignature := by
  constructor
  · exact C4_error_no_mutation_first_check.1 testHost testPid noSignerAccounts
      testPayload .MissingRequiredSignature noSignerAccounts (by decide)
  · have h := C4_error_no_mutation_first_check.2 testHost testPid testServer
      testMetadata testSysvar { testTarget with is_signer := false }
      testPayload ⟨fun lamports _len => decide (0 < lamports)⟩
      ⟨(List.replicate 31 0 ++ [1]) ++ [1]⟩ rfl rfl (by decide)
    rw [h]
    decide

/-- C5: success requires the claim record address to equal the address
derived from the payload hash under the tag metadata, and when every
earlier check passes a mismatched address fails with
AccountNotCheckAccount. -/
theorem C5_address_binding :
    (∀ (host : Host) (pid : Pubkey) (s m v t : AccountInfo)
      (rest : List AccountInfo) (data : Bytes) (st : List AccountInfo),
      process_instruction host pid (s :: m :: v :: t :: rest) data =
        .success st →
      host.createWithSeed ⟨host.hash data⟩ "metadata" pid = .ok m.key) ∧
    (∀ (host : Host) (pid : Pubkey) (s m v t : AccountInfo) (data : Bytes)
      (rent : Rent) (expected : Pubkey),
      s.owner = pid → m.owner = pid →
      host.rentFromData v.data = .ok rent →
      v.key = host.rentId →
      rent.exempt m.lamports m.data.length = true →
      t.is_signer = true →
      host.createWithSeed ⟨host.hash data⟩ "metadata" pid = .ok expected →
      expected ≠ m.key →
      process_instruction host pid [s, m, v, t] data =
        .failure (.Custom VoteError.AccountNotCheckAccount.toCode)
          [s, m, v, t]) := by
  constructor
  · intro host pid s m v t rest data st h
    exact (success_inversion host pid s m v t rest data st h).2.2.2.2.1
  · intro host pid s m v t data rent expected h1 h2 hr h3 h4 h5 hd h6
    simp [process_instruction, h1, h2, hr, h3, h4, h5, hd, h6]

theorem C5_witness :
    testHost.createWithSeed ⟨testHost.hash testPayload⟩ "metadata" testPid =
      .ok testMetadata.key ∧
    process_instruction testHost testPid
      [testServer, wrongKeyMetadata, testSysvar, testTarget] testPayload =
      .failure (.Custom VoteError.AccountNotCheckAccount.toCode)
        [testServer, wrongKeyMetadata, testSysvar, testTarget] := by
  constructor
  · exact C5_address_binding.1 testHost testPid testServer testMetadata
      testSysvar testTarget [] testPayload testAccounts1 (by decide)
  · exact C5_address_binding.2 testHost testPid testServer wrongKeyMetadata
      testSysvar testTarget testPayload
      ⟨fun lamports _len => decide (0 < lamports)⟩
      ⟨(List.replicate 31 0 ++ [1]) ++ [1]⟩
      rfl rfl rfl rfl (by decide) rfl rfl (by decide)

/-- C6: the checks run in the fixed order counter ownership, claim
ownership, attestation identity, rent exemption, signature, derived
address, already claimed, and the error returned is that of the
earliest failing check. -/
theorem C6_check_order (host : Host) (pid : Pubkey)
    (s m v t : AccountInfo) (data : Bytes) (rent : Rent) (expected : Pubkey)
    (hrent : host.rentFromData v.data = .ok rent)
    (hderive : host.createWithSeed ⟨host.hash data⟩ "metadata" pid =
      .ok expected)
    (hlen : m.data.length = 32) :
    (process_instruction host pid [s, m, v, t] data).errorOf =
      firstFailingError
        [ (decide (s.owner = pid), .Custom VoteError.IncorrectOwner.toCode),
          (decide (m.owner = pid), .Custom VoteError.IncorrectOwner.toCode),
          (decide (v.key = host.rentId), .InvalidAccountData),
          (rent.exempt m.lamports m.data.length,
            .Custom VoteError.AccountNotRentExempt.toCode),
          (t.is_signer, .MissingRequiredSignature),
          (decide (expected = m.key),
            .Custom VoteError.AccountNotCheckAccount.toCode),
          (decide (m.data = List.replicate 32 0),
            .Custom VoteError.AlreadyVoted.toCode) ] :=
  process_error_eq_firstFailing host pid s m v t data rent expected
    hrent hderive hlen

theorem C6_witness :
    (process_instruction testHost testPid
      [badOwnerServer, wrongKeyMetadata, testSysvar,
        { testTarget with is_signer := false }] testPayload).errorOf =
      some (.Custom VoteError.IncorrectOwner.toCode) := by
  have h := C6_check_order testHost testPid badOwnerServer wrongKeyMetadata
    testSysvar { testTarget with is_signer := false } testPayload
    ⟨fun lamports _len => decide (0 < lamports)⟩
    ⟨(List.replicate 31 0 ++ [1]) ++ [1]⟩ rfl rfl (by decide)
  rw [h]
  decide

/-- C7 counterexample: an invocation with five records succeeds, so
supplying more than four records does not make the request fail. -/
theorem C7_counterexample_five_records :
    process_instruction testHost testPid (testAccounts ++ [testSysvar])
      testPayload = .success (testAccounts1 ++ [testSysvar]) := by decide

/-- C7 amended: fewer than four records can never succeed, and records
past the fourth are ignored: they change neither the verdict nor the
error. -/
theorem C7_record_count :
    (∀ (host : Host) (pid : Pubkey) (accounts : List AccountInfo)
      (data : Bytes) (st : List AccountInfo),
      accounts.length < 4 →
      process_instruction host pid accounts data ≠ .success st) ∧
    (∀ (host : Host) (pid : Pubkey) (s m v t : AccountInfo)
      (rest : List AccountInfo) (data : Bytes),
      (process_instruction host pid (s :: m :: v :: t :: rest) data).errorOf =
        (process_instruction host pid [s, m, v, t] data).errorOf ∧
      (process_instruction host pid
          (s :: m :: v :: t :: rest) data).isSuccess =
        (process_instruction host pid [s, m, v, t] data).isSuccess) := by
  constructor
  · intro host pid accounts data st hlen
    exact short_list_no_success host pid accounts data st hlen
  · intro host pid s m v t rest data
    exact extras_ignored host pid s m v t rest data

theorem C7_witness :
    process_instruction testHost testPid [testServer] testPayload ≠
      .success [] ∧
    (process_instruction testHost testPid (testAccounts ++ [testSysvar])
        testPayload).isSuccess =
      (process_instruction testHost testPid testAccounts
        testPayload).isSuccess :=
  ⟨C7_record_count.1 testHost testPid [testServer] testPayload []
      (by decide),
    (C7_record_count.2 testHost testPid testServer testMetadata testSysvar
      testTarget [testSysvar] testPayload).2⟩

set_option maxHeartbeats 2000000 in
/-- C8: the vestigial candidate decode accepts exactly the bytes 1 and
2, failing otherwise with UnexpectedCandidate, and the main pipeline
never returns that error when the external host services do not produce
it themselves. -/
theorem C8_candidate_selector_dead :
    (∀ b : Nat, (∃ w, Vote.unpack_from_slice [b] = .ok w) ↔
      (b = 1 ∨ b = 2)) ∧
    (∀ b : Nat, b ≠ 1 → b ≠ 2 → Vote.unpack_from_slice [b] =
      .error (.Custom VoteError.UnexpectedCandidate.toCode)) ∧
    (∀ (host : Host) (pid : Pubkey) (accounts : List AccountInfo)
      (data : Bytes) (st : List AccountInfo),
      (∀ (b : Bytes) (e : ProgErr), host.rentFromData b = .error e →
        e ≠ .Custom VoteError.UnexpectedCandidate.toCode) →
      (∀ (sd : Pubkey) (tag : String) (ow : Pubkey) (e : ProgErr),
        host.createWithSeed sd tag ow = .error e →
        e ≠ .Custom VoteError.UnexpectedCandidate.toCode) →
      process_instruction host pid accounts data ≠
        .failure (.Custom VoteError.UnexpectedCandidate.toCode) st) := by
  refine ⟨?_, ?_, ?_⟩
  · intro b
    constructor
    · rintro ⟨w, hw⟩
      by_cases hb1 : b = 1
      · exact Or.inl hb1
      by_cases hb2 : b = 2
      · exact Or.inr hb2
      simp [Vote.unpack_from_slice, hb1, hb2] at hw
    · rintro (hb | hb) <;> subst hb <;> exact ⟨⟨_⟩, rfl⟩
  · intro b hb1 hb2
    simp [Vote.unpack_from_slice, hb1, hb2, VoteError.toCode]
  · intro host pid accounts data st hhr hhd h
    unfold process_instruction at h
    repeat any_goals split at h
    all_goals simp_all [VoteError.toCode]
    · exact hhr _ _ (by assumption) (by simp_all)
    · exact hhd _ _ _ _ (by assumption) (by simp_all)

theorem C8_witness :
    Vote.unpack_from_slice [3] =
      .error (.Custom VoteError.UnexpectedCandidate.toCode) ∧
    process_instruction testHost testPid testAccounts testPayload ≠
      .failure (.Custom VoteError.UnexpectedCandidate.toCode) testAccounts := by
  constructor
  · exact C8_candidate_selector_dead.2.1 3 (by decide) (by decide)
  · refine C8_candidate_selector_dead.2.2 testHost testPid testAccounts
      testPayload testAccounts ?_ ?_
    · intro b e h
      by_cases hb : b = []
      · simp [testHost, hb] at h
        rw [← h]
        decide
      · simp [testHost, hb] at h
    · intro sd tag ow e h
      simp [testHost] at h

/-- C9: with all checks passed, a claim record that is not exactly 32
bytes makes the handler panic on the claim-record decode, a counter
record that is not exactly 4 bytes makes it panic on the counter
decode, and with both lengths correct no panic is reachable. -/
theorem C9_length_panics :
    (∀ (host : Host) (pid : Pubkey) (s m v t : AccountInfo) (data : Bytes)
      (rent : Rent),
      s.owner = pid → m.owner = pid →
      host.rentFromData v.data = .ok rent →
      v.key = host.rentId →
      rent.exempt m.lamports m.data.length = true →
      t.is_signer = true →
      host.createWithSeed ⟨host.hash data⟩ "metadata" pid = .ok m.key →
      m.data.length ≠ 32 →
      process_instruction host pid [s, m, v, t] data =
        .panic "Failed to read VoterCheck") ∧
    (∀ (host : Host) (pid : Pubkey) (s m v t : AccountInfo) (data : Bytes)
      (rent : Rent),
      s.owner = pid → m.owner = pid →
      host.rentFromData v.data = .ok rent →
      v.key = host.rentId →
      rent.exempt m.lamports m.data.length = true →
      t.is_signer = true →
      host.createWithSeed ⟨host.hash data⟩ "metadata" pid = .ok m.key →
      m.data = List.replicate 32 0 →
      s.data.length ≠ 4 →
      process_instruction host pid [s, m, v, t] data =
        .panic "Failed to read ServerData") ∧
    (∀ (host : Host) (pid : Pubkey) (s m v t : AccountInfo)
      (rest : List AccountInfo) (data : Bytes) (msg : String),
      m.data.length = 32 → s.data.length = 4 →
      process_instruction host pid (s :: m :: v :: t :: rest) data ≠
        .panic msg) := by
  refine ⟨?_, ?_, ?_⟩
  · intro host pid s m v t data rent h1 h2 hr h3 h4 h5 hd hm
    simp [process_instruction, h1, h2, hr, h3, h4, h5, hd, hm,
      Metadata.unpack_unchecked, Metadata.LEN]
  · intro host pid s m v t data rent h1 h2 hr h3 h4 h5 hd hz hs
    have h4x : rent.exempt m.lamports 32 = true := by
      rw [hz] at h4
      simpa using h4
    simp [process_instruction, h1, h2, hr, h3, h4, h4x, h5, hd, hz, hs,
      Metadata.unpack_unchecked, Metadata.unpack_from_slice, Metadata.LEN,
      ServerData.unpack_unchecked, ServerData.LEN]
  · intro host pid s m v t rest data msg hm hs
    exact no_panic host pid s m v t rest data hm hs msg

theorem C9_witness :
    process_instruction testHost testPid
      [testServer, shortMetadata, testSysvar, testTarget] testPayload =
      .panic "Failed to read VoterCheck" ∧
    process_instruction testHost testPid
      [shortServer, testMetadata, testSysvar, testTarget] testPayload =
      .panic "Failed to read ServerData" ∧
    process_instruction testHost testPid testAccounts testPayload ≠
      .panic "Failed to read VoterCheck" := by
  refine ⟨?_, ?_, ?_⟩
  · exact C9_length_panics.1 testHost testPid testServer shortMetadata
      testSysvar testTarget testPayload
      ⟨fun lamports _len => decide (0 < lamports)⟩
      rfl rfl rfl rfl (by decide) rfl rfl (by decide)
  · exact C9_length_panics.2.1 testHost testPid shortServer testMetadata
      testSysvar testTarget testPayload
      ⟨fun lamports _len => decide (0 < lamports)⟩
      rfl rfl rfl rfl (by decide) rfl rfl (by decide) (by decide)
  · exact C9_length_panics.2.2 testHost testPid testServer testMetadata
      testSysvar testTarget [] testPayload "Failed to read VoterCheck"
      (by decide) (by decide)

set_option maxHeartbeats 4000000 in
/-- C10: replacing the requester record key, with the signer flag kept,
changes neither the verdict, nor the error, nor any final record data:
the requester key is only compared against nothing and never
persisted. -/
theorem C10_requester_independent (host : Host) (pid : Pubkey)
    (s m v t : AccountInfo) (k : Pubkey) (rest : List AccountInfo)
    (data : Bytes) :
    (process_instruction host pid (s :: m :: v :: t :: rest) data).errorOf =
      (process_instruction host pid
        (s :: m :: v :: { t with key := k } :: rest) data).errorOf ∧
    (process_instruction host pid (s :: m :: v :: t :: rest) data).isSuccess =
      (process_instruction host pid
        (s :: m :: v :: { t with key := k } :: rest) data).isSuccess ∧
    (process_instruction host pid (s :: m :: v :: t :: rest) data).finalData =
      (process_instruction host pid
        (s :: m :: v :: { t with key := k } :: rest) data).finalData := by
  unfold process_instruction
  simp only [List.getElem?_cons_zero, List.getElem?_cons_succ]
  repeat any_goals split
  all_goals simp_all [Outcome.errorOf, Outcome.isSuccess, Outcome.finalData,
    setData]
